import Mathlib

/-!
Verification of the DNS backend detection / read / write core of the
`cdns` repository (Go).  The Go code is shallowly embedded: every probe
and every external command invocation becomes a field of an explicit
oracle structure, Go `(value, error)` pairs become `Prod`/`Except`
values, and each Go function is translated line by line into a Lean
definition of the same name.
-/

namespace CDNS

/-- Split a character list at every occurrence of `sep`; the result is
always non-empty, like Go `strings.Split` with a one-character
separator. -/
def splitOnChar (sep : Char) : List Char → List (List Char)
  | [] => [[]]
  | c :: cs =>
    let r := splitOnChar sep cs
    if c = sep then [] :: r
    else (c :: r.headD []) :: r.tail

/-- Split a character list at every character satisfying `p`. -/
def splitOnPred (p : Char → Bool) : List Char → List (List Char)
  | [] => [[]]
  | c :: cs =>
    let r := splitOnPred p cs
    if p c then [] :: r
    else (c :: r.headD []) :: r.tail

/-- Break a character list at the first occurrence of `sep`: the part
before it and, when `sep` occurs, the part after it. -/
def breakAtChar (sep : Char) : List Char → List Char × Option (List Char)
  | [] => ([], none)
  | c :: cs =>
    if c = sep then ([], some cs)
    else
      let r := breakAtChar sep cs
      (c :: r.1, r.2)

/-- Whether Go `unicode.IsSpace` holds of a Latin-1 character (the set
Go itself lists for code points below 256; wider Unicode space runes
are not modeled, no input in this development contains them). -/
def isGoSpace (c : Char) : Bool :=
  c == ' ' || c == '\t' || c == '\n' || c == '\x0b' || c == '\x0c' ||
  c == '\r' || c == '\x85' || c == '\xa0'

/-- Embeds Go `strings.TrimSpace`. -/
def goTrim (s : String) : String :=
  String.mk (((s.data.dropWhile isGoSpace).reverse.dropWhile isGoSpace).reverse)

/-- Embeds Go `strings.HasPrefix(s, pre)`. -/
def goStartsWith (s pre : String) : Bool :=
  pre.data.isPrefixOf s.data

/-- Embeds Go `strings.Contains(s, c)` for a one-character substring. -/
def goContains (s : String) (c : Char) : Bool :=
  s.data.contains c

/-- Embeds Go `bufio.Scanner` with `ScanLines` over an in-memory string:
split at each newline, drop a trailing carriage return of every line,
and do not produce a final empty line for a trailing newline. -/
def goLines (s : String) : List String :=
  let parts := splitOnChar '\n' s.data
  let parts := if parts.getLast? == some [] then parts.dropLast else parts
  parts.map (fun l => String.mk (if l.getLast? == some '\r' then l.dropLast else l))

/-- Embeds Go `strings.Fields`: split around runs of whitespace. -/
def goFields (s : String) : List String :=
  ((splitOnPred isGoSpace s.data).filter (fun t => t ≠ [])).map String.mk

/-- Embeds Go `strings.Split(s, ":")`. -/
def goSplitColon (s : String) : List String :=
  (splitOnChar ':' s.data).map String.mk

/-- Embeds Go `strings.SplitN(s, ":", 2)`. -/
def splitN2Colon (s : String) : List String :=
  match breakAtChar ':' s.data with
  | (a, none) => [String.mk a]
  | (a, some b) => [String.mk a, String.mk b]

/-- Embeds Go `strings.Trim(s, "()")`: remove leading and trailing
characters drawn from the cutset. -/
def goTrimParens (s : String) : String :=
  String.mk (((s.data.dropWhile (fun c => c == '(' || c == ')')).reverse.dropWhile
    (fun c => c == '(' || c == ')')).reverse)

/-- The probe interface of `detector.go` (`SystemOps`).  A Go
`(bool, error)` return is a `Bool × Option String` pair: the second
component is the error message when the call errored. -/
structure SystemOps where
  CommandExists : String → Bool
  ServiceRunning : String → Bool × Option String
  FileExists : String → Bool
  IsRegularFile : String → Bool × Option String
  IsSymlink : String → Bool × Option String

/-- `models.BackendNetworkManager` (Go `Backend` is a string type). -/
def BackendNetworkManager : String := "NetworkManager"

/-- `models.BackendSystemdResolved`. -/
def BackendSystemdResolved : String := "systemd-resolved"

/-- `models.BackendResolvConf`. -/
def BackendResolvConf : String := "resolv.conf"

/-- `models.BackendNetplan`. -/
def BackendNetplan : String := "netplan"

/-- The error message built in `DetectWithReason` when NetworkManager is
running but nmcli is missing (detector.go lines 102-107). -/
def nmcliMissingMessage : String :=
  "NetworkManager is running but 'nmcli' command is missing.\n\n" ++
  "To continue, please install the NetworkManager CLI tool:\n" ++
  "  - Debian/Ubuntu: sudo apt install network-manager\n" ++
  "  - Fedora/RHEL: sudo dnf install NetworkManager\n" ++
  "  - Arch Linux: sudo pacman -S networkmanager"

/-- Step 3 of `DetectWithReason` (detector.go lines 130-156): the
unmanaged resolv.conf check, reached when neither NetworkManager nor
systemd-resolved was selected.  Result triple is
(backend, reason, error). -/
def detectStep3 (s : SystemOps) : String × String × Option String :=
  if s.FileExists "/etc/resolv.conf" then
    let sym := s.IsSymlink "/etc/resolv.conf"
    match sym.2 with
    | some e => ("", "", some ("failed to check if resolv.conf is a symlink: " ++ e))
    | none =>
      if sym.1 then
        ("", "resolv.conf is a symlink (managed by a service)",
          some "resolv.conf is managed by a service")
      else
        let reg := s.IsRegularFile "/etc/resolv.conf"
        match reg.2 with
        | some e => ("", "", some ("failed to check if resolv.conf is a regular file: " ++ e))
        | none =>
          if reg.1 then
            (BackendResolvConf,
              "/etc/resolv.conf exists and is a regular file (not managed by a service)",
              none)
          else
            ("", "no supported DNS backend found", some "no supported DNS backend found")
  else
    ("", "no supported DNS backend found", some "no supported DNS backend found")

/-- Step 2 of `DetectWithReason` (detector.go lines 110-128): the
systemd-resolved check; falls through to `detectStep3` when not
selected. -/
def detectStep2 (s : SystemOps) : String × String × Option String :=
  let hasResolvectl := s.CommandExists "resolvectl"
  let hasSystemdResolve := s.CommandExists "systemd-resolve"
  if hasResolvectl || hasSystemdResolve then
    let q := s.ServiceRunning "systemd-resolved"
    match q.2 with
    | some e => ("", "", some ("failed to check systemd-resolved status: " ++ e))
    | none =>
      if q.1 then
        let cmdName := if !hasResolvectl then "systemd-resolve" else "resolvectl"
        (BackendSystemdResolved,
          cmdName ++ " command available and systemd-resolved service is running",
          none)
      else
        detectStep3 s
  else
    detectStep3 s

/-- `Detector.DetectWithReason` (detector.go lines 93-157).  Note that
the Go code discards the error component of the NetworkManager service
query (`nmRunning, _ := d.sysOps.ServiceRunning("NetworkManager")`). -/
def DetectWithReason (s : SystemOps) : String × String × Option String :=
  let nmRunning := (s.ServiceRunning "NetworkManager").1
  if nmRunning then
    if s.CommandExists "nmcli" then
      (BackendNetworkManager,
        "nmcli command available and NetworkManager service is running",
        none)
    else
      ("", "", some nmcliMissingMessage)
  else
    detectStep2 s

/-- `Detector.Detect` (detector.go lines 86-90): drop the reason. -/
def Detect (s : SystemOps) : String × Option String :=
  let r := DetectWithReason s
  (r.1, r.2.2)

/-- `status.InterfaceStatus`: DNS information for one interface. -/
structure InterfaceStatus where
  Name : String
  IPv4 : List String
  IPv6 : List String
deriving DecidableEq, Repr

/-- `status.StatusInfo`: result of a read. -/
structure StatusInfo where
  Backend : String
  Interfaces : List InterfaceStatus
  Managed : Bool
  Warnings : List String
deriving DecidableEq, Repr

/-- `models.DNSServer`. -/
structure DNSServer where
  IPv4 : List String
  IPv6 : List String
  Description : String
deriving DecidableEq, Repr

/-- `models.NetworkInterface`. -/
structure NetworkInterface where
  Name : String
  Backend : String
deriving DecidableEq, Repr

/-- `models.DNSConfig`. -/
structure DNSConfig where
  Interface : NetworkInterface
  DNS : DNSServer
deriving DecidableEq, Repr

/-- The external world the `ConfigReader` observes: the probe's
`CommandExists`, the output (or invocation error) of each external
command run by the reader, and the content (or open error) of
/etc/resolv.conf. -/
structure World where
  CommandExists : String → Bool
  nmActiveConnections : Except String String
  nmConnectionShow : String → Except String String
  resolvectlStatus : Except String String
  systemdResolveStatus : Except String String
  resolvConfContent : Except String String

/-- The parsing loop of `getDNSForConnection` (part_008): scan the
`nmcli -t -f IP4.DNS,IP6.DNS connection show` output line by line. -/
def parseConnectionDNS (output : String) : List String × List String :=
  (goLines output).foldl
    (fun acc line =>
      if goStartsWith line "IP4.DNS" then
        match splitN2Colon line with
        | [_, v] => if v ≠ "" then (acc.1 ++ [goTrim v], acc.2) else acc
        | _ => acc
      else if goStartsWith line "IP6.DNS" then
        match splitN2Colon line with
        | [_, v] => if v ≠ "" then (acc.1, acc.2 ++ [goTrim v]) else acc
        | _ => acc
      else acc)
    ([], [])

/-- `ConfigReader.getDNSForConnection` (part_008): run
`nmcli -t -f IP4.DNS,IP6.DNS connection show <conn>` and parse. -/
def getDNSForConnection (w : World) (connName : String) :
    Except String (List String × List String) :=
  match w.nmConnectionShow connName with
  | .error e => .error e
  | .ok output => .ok (parseConnectionDNS output)

/-- One iteration of the active-connection loop of
`readNetworkManager`: accumulates (interfaces, warnings). -/
def nmReadStep (w : World) (acc : List InterfaceStatus × List String)
    (line : String) : List InterfaceStatus × List String :=
  match goSplitColon line with
  | name :: device :: _ =>
    if device = "" then acc
    else
      match getDNSForConnection w name with
      | .error err =>
        (acc.1, acc.2 ++ ["failed to get DNS for " ++ device ++ ": " ++ err])
      | .ok (ipv4, ipv6) =>
        if ipv4.length > 0 || ipv6.length > 0 then
          (acc.1 ++ [{ Name := device, IPv4 := ipv4, IPv6 := ipv6 }], acc.2)
        else acc
  | _ => acc

/-- `ConfigReader.readNetworkManager` (part_008 lines 40-90): list
active connections, query DNS per connection, downgrade per-connection
failures to warnings. -/
def readNetworkManager (w : World) : Except String StatusInfo :=
  match w.nmActiveConnections with
  | .error e => .error ("failed to get active connections: " ++ e)
  | .ok output =>
    let r := (goLines output).foldl (nmReadStep w) ([], [])
    .ok { Backend := BackendNetworkManager, Interfaces := r.1,
          Managed := true, Warnings := r.2 }

/-- State of the `parseSystemdResolvedOutput` scan: interfaces emitted
so far and the interface section currently open. -/
structure SDParseState where
  interfaces : List InterfaceStatus
  current : Option InterfaceStatus

/-- Classify one address by colon-presence and append it to the open
interface section (shared by the three address-line cases of
`parseSystemdResolvedOutput`). -/
def sdAddAddr (ci : InterfaceStatus) (addr : String) : InterfaceStatus :=
  if goContains addr ':' then { ci with IPv6 := ci.IPv6 ++ [addr] }
  else { ci with IPv4 := ci.IPv4 ++ [addr] }

/-- One line of `parseSystemdResolvedOutput` (part_008). -/
def sdParseStep (st : SDParseState) (rawLine : String) : SDParseState :=
  let line := goTrim rawLine
  if goStartsWith line "Link " then
    let flushed :=
      match st.current with
      | some ci =>
        if ci.IPv4.length > 0 || ci.IPv6.length > 0 then st.interfaces ++ [ci]
        else st.interfaces
      | none => st.interfaces
    let parts := goFields line
    match parts with
    | _ :: _ :: p2 :: _ =>
      { interfaces := flushed,
        current := some { Name := goTrimParens p2, IPv4 := [], IPv6 := [] } }
    | _ => { interfaces := flushed, current := st.current }
  else
    match st.current with
    | none => st
    | some ci =>
      if goStartsWith line "Current DNS Server:" then
        match splitN2Colon line with
        | [_, v] => { st with current := some (sdAddAddr ci (goTrim v)) }
        | _ => st
      else if goStartsWith line "DNS Servers:" then
        match splitN2Colon line with
        | [_, v] => { st with current := some (sdAddAddr ci (goTrim v)) }
        | _ => st
      else if goStartsWith line "- " then
        let addr := goTrim (String.mk (line.data.drop 2))
        if addr ≠ "" then { st with current := some (sdAddAddr ci addr) }
        else st
      else st

/-- `ConfigReader.parseSystemdResolvedOutput` (part_008): scan the
free-text status output for link sections and DNS server lines. -/
def parseSystemdResolvedOutput (output : String) : List InterfaceStatus :=
  let st := (goLines output).foldl sdParseStep { interfaces := [], current := none }
  match st.current with
  | some ci =>
    if ci.IPv4.length > 0 || ci.IPv6.length > 0 then st.interfaces ++ [ci]
    else st.interfaces
  | none => st.interfaces

/-- `ConfigReader.readSystemdResolved` (part_008): invoke whichever
introspection command exists (resolvectl preferred) and parse. -/
def readSystemdResolved (w : World) : Except String StatusInfo :=
  if w.CommandExists "resolvectl" then
    match w.resolvectlStatus with
    | .error e => .error ("failed to get systemd-resolved status: " ++ e)
    | .ok output =>
      .ok { Backend := BackendSystemdResolved,
            Interfaces := parseSystemdResolvedOutput output,
            Managed := true, Warnings := [] }
  else if w.CommandExists "systemd-resolve" then
    match w.systemdResolveStatus with
    | .error e => .error ("failed to get systemd-resolved status: " ++ e)
    | .ok output =>
      .ok { Backend := BackendSystemdResolved,
            Interfaces := parseSystemdResolvedOutput output,
            Managed := true, Warnings := [] }
  else .error "neither resolvectl nor systemd-resolve found"

/-- One line of the `readResolvConf` loop (part_008 lines 236-260):
skip comments and blanks, collect nameserver address tokens. -/
def resolvStep (acc : List String × List String) (rawLine : String) :
    List String × List String :=
  let line := goTrim rawLine
  if goStartsWith line "#" || line == "" then acc
  else if goStartsWith line "nameserver" then
    match goFields line with
    | _ :: addr :: _ =>
      if goContains addr ':' then (acc.1, acc.2 ++ [addr])
      else (acc.1 ++ [addr], acc.2)
    | _ => acc
  else acc

/-- `ConfigReader.readResolvConf` (part_008 lines 222-274). -/
def readResolvConf (w : World) : Except String StatusInfo :=
  match w.resolvConfContent with
  | .error e => .error ("failed to open /etc/resolv.conf: " ++ e)
  | .ok content =>
    let r := (goLines content).foldl resolvStep ([], [])
    .ok { Backend := BackendResolvConf,
          Interfaces :=
            if r.1.length > 0 || r.2.length > 0 then
              [{ Name := "system", IPv4 := r.1, IPv6 := r.2 }]
            else [],
          Managed := false, Warnings := [] }

/-- `ConfigReader.ReadDNSConfig` (part_008 lines 26-37): dispatch on
the backend value. -/
def ReadDNSConfig (w : World) (backend : String) : Except String StatusInfo :=
  if backend = BackendNetworkManager then readNetworkManager w
  else if backend = BackendSystemdResolved then readSystemdResolved w
  else if backend = BackendResolvConf then readResolvConf w
  else .error ("unsupported backend: " ++ backend)

/-- A spawned external command: program name followed by arguments. -/
abbrev Cmd := List String

/-- The command executor the `ConfigWriter` uses.  `run` returns the
combined output and, when the command failed, its error message —
Go `cmd.CombinedOutput()`. -/
structure Exec where
  run : Cmd → String × Option String

/-- The `nmcli -g GENERAL.CONNECTION device show <iface>` command of
`getNMConnection` (writer.go). -/
def nmDeviceShowCmd (iface : String) : Cmd :=
  ["nmcli", "-g", "GENERAL.CONNECTION", "device", "show", iface]

/-- The `nmcli device reapply <iface>` command (writer.go). -/
def nmReapplyCmd (iface : String) : Cmd :=
  ["nmcli", "device", "reapply", iface]

/-- The `nmcli connection modify <conn> ipv4.dns <servers>
ipv4.ignore-auto-dns yes` command of `applyNetworkManager`. -/
def nmModifyV4Cmd (connName dnsStr : String) : Cmd :=
  ["nmcli", "connection", "modify", connName, "ipv4.dns", dnsStr,
   "ipv4.ignore-auto-dns", "yes"]

/-- The IPv6 counterpart of `nmModifyV4Cmd`. -/
def nmModifyV6Cmd (connName dnsStr : String) : Cmd :=
  ["nmcli", "connection", "modify", connName, "ipv6.dns", dnsStr,
   "ipv6.ignore-auto-dns", "yes"]

/-- `ConfigWriter.getNMConnection` (writer.go lines 79-92), paired with
the list of commands it issued. -/
def getNMConnection (ex : Exec) (iface : String) :
    Except String String × List Cmd :=
  (let r := ex.run (nmDeviceShowCmd iface)
   match r.2 with
   | some e => .error ("nmcli error: " ++ goTrim r.1 ++ ": " ++ e)
   | none =>
     let res := goTrim r.1
     if res = "" then .error ("no active connection found for interface " ++ iface)
     else .ok res,
   [nmDeviceShowCmd iface])

/-- The body of one `applyNetworkManager` loop iteration (writer.go
lines 35-76), for one `DNSConfig`; returns the Go early-return value
and the commands issued during the iteration. -/
def applyNMStep (ex : Exec) (cfg : DNSConfig) : Except String Unit × List Cmd :=
  if cfg.Interface.Name = "" then (.ok (), [])
  else
    let conn := getNMConnection ex cfg.Interface.Name
    match conn.1 with
    | .error e =>
      (.error ("failed to get active connection for " ++ cfg.Interface.Name ++ ": " ++ e),
       conn.2)
    | .ok connName =>
      let afterV4 : Except String Unit × List Cmd :=
        if cfg.DNS.IPv4.length > 0 then
          let dnsStr := String.intercalate " " cfg.DNS.IPv4
          let r := ex.run (nmModifyV4Cmd connName dnsStr)
          match r.2 with
          | some e =>
            (.error ("failed to set IPv4 DNS for " ++ cfg.Interface.Name ++
              " (conn: " ++ connName ++ "): " ++ goTrim r.1 ++ ": " ++ e),
             conn.2 ++ [nmModifyV4Cmd connName dnsStr])
          | none => (.ok (), conn.2 ++ [nmModifyV4Cmd connName dnsStr])
        else (.ok (), conn.2)
      match afterV4.1 with
      | .error e => (.error e, afterV4.2)
      | .ok _ =>
        let afterV6 : Except String Unit × List Cmd :=
          if cfg.DNS.IPv6.length > 0 then
            let dnsStr := String.intercalate " " cfg.DNS.IPv6
            let r := ex.run (nmModifyV6Cmd connName dnsStr)
            match r.2 with
            | some e =>
              (.error ("failed to set IPv6 DNS for " ++ cfg.Interface.Name ++
                " (conn: " ++ connName ++ "): " ++ goTrim r.1 ++ ": " ++ e),
               afterV4.2 ++ [nmModifyV6Cmd connName dnsStr])
            | none => (.ok (), afterV4.2 ++ [nmModifyV6Cmd connName dnsStr])
          else (.ok (), afterV4.2)
        match afterV6.1 with
        | .error e => (.error e, afterV6.2)
        | .ok _ =>
          let r := ex.run (nmReapplyCmd cfg.Interface.Name)
          match r.2 with
          | some e =>
            (.error ("failed to reapply configuration on device " ++
              cfg.Interface.Name ++ ": " ++ r.1 ++ ": " ++ e),
             afterV6.2 ++ [nmReapplyCmd cfg.Interface.Name])
          | none => (.ok (), afterV6.2 ++ [nmReapplyCmd cfg.Interface.Name])

/-- The body of one `applySystemdResolved` loop iteration (writer.go
lines 95-114). -/
def applySDStep (ex : Exec) (cfg : DNSConfig) : Except String Unit × List Cmd :=
  if cfg.Interface.Name = "" then (.ok (), [])
  else
    let allDNS := cfg.DNS.IPv4 ++ cfg.DNS.IPv6
    if allDNS.length = 0 then (.ok (), [])
    else
      let cmd : Cmd := ["resolvectl", "dns", cfg.Interface.Name] ++ allDNS
      let r := ex.run cmd
      match r.2 with
      | some e =>
        (.error ("failed to set DNS for " ++ cfg.Interface.Name ++
          " via resolvectl: " ++ goTrim r.1 ++ ": " ++ e), [cmd])
      | none => (.ok (), [cmd])

/-- The `nmcli connection modify <conn> ipv4.dns "" ipv4.ignore-auto-dns
no` command of `resetNetworkManager`. -/
def nmModifyV4ResetCmd (connName : String) : Cmd :=
  ["nmcli", "connection", "modify", connName, "ipv4.dns", "",
   "ipv4.ignore-auto-dns", "no"]

/-- The IPv6 counterpart of `nmModifyV4ResetCmd`. -/
def nmModifyV6ResetCmd (connName : String) : Cmd :=
  ["nmcli", "connection", "modify", connName, "ipv6.dns", "",
   "ipv6.ignore-auto-dns", "no"]

/-- The body of one `resetNetworkManager` loop iteration (writer.go
lines 130-154). -/
def resetNMStep (ex : Exec) (iface : String) : Except String Unit × List Cmd :=
  let conn := getNMConnection ex iface
  match conn.1 with
  | .error e =>
    (.error ("failed to get connection for " ++ iface ++ ": " ++ e), conn.2)
  | .ok connName =>
    let cmd4 := nmModifyV4ResetCmd connName
    let r4 := ex.run cmd4
    match r4.2 with
    | some e =>
      (.error ("failed to reset IPv4 DNS for " ++ iface ++ ": " ++ goTrim r4.1 ++ ": " ++ e),
       conn.2 ++ [cmd4])
    | none =>
      let cmd6 := nmModifyV6ResetCmd connName
      let r6 := ex.run cmd6
      match r6.2 with
      | some e =>
        (.error ("failed to reset IPv6 DNS for " ++ iface ++ ": " ++ goTrim r6.1 ++ ": " ++ e),
         conn.2 ++ [cmd4, cmd6])
      | none =>
        let r := ex.run (nmReapplyCmd iface)
        match r.2 with
        | some e =>
          (.error ("failed to reapply configuration on " ++ iface ++ ": " ++ goTrim r.1 ++ ": " ++ e),
           conn.2 ++ [cmd4, cmd6, nmReapplyCmd iface])
        | none => (.ok (), conn.2 ++ [cmd4, cmd6, nmReapplyCmd iface])

/-- The body of one `resetSystemdResolved` loop iteration (writer.go
lines 158-166): `resolvectl revert <iface>`. -/
def resetSDStep (ex : Exec) (iface : String) : Except String Unit × List Cmd :=
  let cmd : Cmd := ["resolvectl", "revert", iface]
  let r := ex.run cmd
  match r.2 with
  | some e =>
    (.error ("failed to revert DNS for " ++ iface ++ ": " ++ goTrim r.1 ++ ": " ++ e), [cmd])
  | none => (.ok (), [cmd])

/-- The shared shape of the four writer loops: run the iteration body
on each element in order, returning the first error (Go
`for ... - if err != nil - return err`), together with all commands
issued before the loop stopped. -/
def runAll (step : α → Except String Unit × List Cmd) :
    List α → Except String Unit × List Cmd
  | [] => (.ok (), [])
  | x :: xs =>
    match step x with
    | (.ok _, t) =>
      let rest := runAll step xs
      (rest.1, t ++ rest.2)
    | (.error e, t) => (.error e, t)

/-- `ConfigWriter.applyNetworkManager` (writer.go lines 34-77). -/
def applyNetworkManager (ex : Exec) (configs : List DNSConfig) :
    Except String Unit × List Cmd :=
  runAll (applyNMStep ex) configs

/-- `ConfigWriter.applySystemdResolved` (writer.go lines 94-115). -/
def applySystemdResolved (ex : Exec) (configs : List DNSConfig) :
    Except String Unit × List Cmd :=
  runAll (applySDStep ex) configs

/-- `ConfigWriter.resetNetworkManager` (writer.go lines 129-155). -/
def resetNetworkManager (ex : Exec) (interfaces : List String) :
    Except String Unit × List Cmd :=
  runAll (resetNMStep ex) interfaces

/-- `ConfigWriter.resetSystemdResolved` (writer.go lines 157-167). -/
def resetSystemdResolved (ex : Exec) (interfaces : List String) :
    Except String Unit × List Cmd :=
  runAll (resetSDStep ex) interfaces

/-- `ConfigWriter.Apply` (writer.go lines 23-32): dispatch on the
backend value. -/
def Apply (ex : Exec) (backend : String) (configs : List DNSConfig) :
    Except String Unit × List Cmd :=
  if backend = BackendNetworkManager then applyNetworkManager ex configs
  else if backend = BackendSystemdResolved then applySystemdResolved ex configs
  else (.error ("unsupported backend for writing: " ++ backend), [])

/-- `ConfigWriter.ResetToAutomatic` (writer.go lines 118-127). -/
def ResetToAutomatic (ex : Exec) (backend : String) (interfaces : List String) :
    Except String Unit × List Cmd :=
  if backend = BackendNetworkManager then resetNetworkManager ex interfaces
  else if backend = BackendSystemdResolved then resetSystemdResolved ex interfaces
  else (.error ("unsupported backend for reset: " ++ backend), [])

/-! ## Claims about the detector -/

/-- C1: for every probe state in which the NetworkManager service query
reports true and nmcli exists, `Detect` returns the NetworkManager
backend with no error and `DetectWithReason` returns the exact reason
string, regardless of every other probe (priority wins). -/
theorem C1_networkmanager_priority_wins (s : SystemOps)
    (hrun : (s.ServiceRunning "NetworkManager").1 = true)
    (hcmd : s.CommandExists "nmcli" = true) :
    Detect s = (BackendNetworkManager, none) ∧
    DetectWithReason s =
      (BackendNetworkManager,
       "nmcli command available and NetworkManager service is running", none) := by
  constructor
  · simp [Detect, DetectWithReason, hrun, hcmd]
  · simp [DetectWithReason, hrun, hcmd]

/-- Probe state for the C1 witness: both services report running, both
CLI tools exist, and resolv.conf exists as a symlink, so every
lower-priority backend also looks available. -/
def sysOpsC1 : SystemOps :=
  { CommandExists := fun _ => true,
    ServiceRunning := fun _ => (true, none),
    FileExists := fun _ => true,
    IsRegularFile := fun _ => (true, none),
    IsSymlink := fun _ => (true, none) }

/-- Witness for C1 at a probe state where both services run at once. -/
theorem C1_networkmanager_priority_wins_witness :
    Detect sysOpsC1 = (BackendNetworkManager, none) ∧
    DetectWithReason sysOpsC1 =
      (BackendNetworkManager,
       "nmcli command available and NetworkManager service is running", none) :=
  C1_networkmanager_priority_wins sysOpsC1 (by rfl) (by rfl)

/-- Probe state refuting C2: the NetworkManager service query itself
errors, resolvectl exists and systemd-resolved runs. -/
def sysOpsC2 : SystemOps :=
  { CommandExists := fun c => c == "resolvectl",
    ServiceRunning := fun n =>
      if n == "NetworkManager" then (false, some "permission denied")
      else if n == "systemd-resolved" then (true, none)
      else (false, none),
    FileExists := fun _ => false,
    IsRegularFile := fun _ => (false, none),
    IsSymlink := fun _ => (false, none) }

/-- C2 counterexample: `ServiceRunning("NetworkManager")` returns an
error, yet `DetectWithReason` does not abort — it falls through and
selects systemd-resolved with no error, because detector.go line 95
discards the error (`nmRunning, _ := ...`). -/
theorem C2_counterexample :
    sysOpsC2.ServiceRunning "NetworkManager" = (false, some "permission denied") ∧
    DetectWithReason sysOpsC2 =
      (BackendSystemdResolved,
       "resolvectl command available and systemd-resolved service is running",
       none) :=
  ⟨rfl, rfl⟩

/-- C2 as amended: a NetworkManager service-query error is discarded —
detection behaves exactly as if that query had reported (false, nil)
and falls through — while a systemd-resolved service-query error (with
a resolver CLI present) does abort with a wrapped error and never
reaches the resolv.conf step. -/
theorem C2_amended_nm_query_error_ignored (s : SystemOps) (e : String)
    (h : s.ServiceRunning "NetworkManager" = (false, some e)) :
    DetectWithReason s =
      DetectWithReason { s with ServiceRunning := fun n =>
        if n = "NetworkManager" then (false, none) else s.ServiceRunning n } ∧
    (∀ e2 : String,
      (s.CommandExists "resolvectl" || s.CommandExists "systemd-resolve") = true →
      (s.ServiceRunning "systemd-resolved").2 = some e2 →
      DetectWithReason s =
        ("", "", some ("failed to check systemd-resolved status: " ++ e2))) := by
  have hs2 : ({ s with ServiceRunning := fun n =>
      if n = "NetworkManager" then (false, none) else s.ServiceRunning n } :
      SystemOps).ServiceRunning "systemd-resolved" =
      s.ServiceRunning "systemd-resolved" := by
    simp
  constructor
  · simp only [DetectWithReason, h]
    simp only [detectStep2, detectStep3, hs2]
    simp
  · intro e2 htools herr
    simp [DetectWithReason, h, detectStep2, htools, herr]

/-- Probe state for the C2 amended-claim witness: NetworkManager query
errors, resolvectl exists, systemd-resolved query also errors. -/
def sysOpsC2w : SystemOps :=
  { CommandExists := fun c => c == "resolvectl",
    ServiceRunning := fun n =>
      if n == "NetworkManager" then (false, some "permission denied")
      else if n == "systemd-resolved" then (false, some "dbus timeout")
      else (false, none),
    FileExists := fun _ => true,
    IsRegularFile := fun _ => (true, none),
    IsSymlink := fun _ => (false, none) }

/-- Witness for the amended C2. -/
theorem C2_amended_nm_query_error_ignored_witness :
    DetectWithReason sysOpsC2w =
      DetectWithReason { sysOpsC2w with ServiceRunning := (fun n =>
        if n = "NetworkManager" then (false, none)
        else sysOpsC2w.ServiceRunning n) } ∧
    DetectWithReason sysOpsC2w =
      ("", "", some ("failed to check systemd-resolved status: " ++ "dbus timeout")) :=
  ⟨(C2_amended_nm_query_error_ignored sysOpsC2w "permission denied" rfl).1,
   (C2_amended_nm_query_error_ignored sysOpsC2w "permission denied" rfl).2
     "dbus timeout" rfl rfl⟩

/-- C3: for every probe state in which the NetworkManager service query
reports true but nmcli is missing, `DetectWithReason` returns the
zero-value backend and the fatal error whose message lists the
per-distro install commands (see `nmcliMissingMessage`); lower-priority
steps are never consulted (the result does not depend on any other
probe). -/
theorem C3_nm_running_nmcli_missing_fatal (s : SystemOps)
    (hrun : (s.ServiceRunning "NetworkManager").1 = true)
    (hcmd : s.CommandExists "nmcli" = false) :
    DetectWithReason s = ("", "", some nmcliMissingMessage) := by
  simp [DetectWithReason, hrun, hcmd]

/-- Probe state for the C3 witness: NetworkManager runs, no command
exists, every lower-priority backend looks available. -/
def sysOpsC3 : SystemOps :=
  { CommandExists := fun _ => false,
    ServiceRunning := fun _ => (true, none),
    FileExists := fun _ => true,
    IsRegularFile := fun _ => (true, none),
    IsSymlink := fun _ => (false, none) }

/-- Witness for C3. -/
theorem C3_nm_running_nmcli_missing_fatal_witness :
    DetectWithReason sysOpsC3 = ("", "", some nmcliMissingMessage) :=
  C3_nm_running_nmcli_missing_fatal sysOpsC3 rfl rfl

/-- C4: when NetworkManager is not selected, systemd-resolved is not
selected, and /etc/resolv.conf exists and the symlink probe reports
true, `Detect` errors and never returns the resolv.conf backend, and
`DetectWithReason` returns a non-empty reason with the zero-value
backend. -/
theorem C4_symlinked_resolv_conf_rejected (s : SystemOps)
    (h1 : (s.ServiceRunning "NetworkManager").1 = false)
    (h2 : (s.CommandExists "resolvectl" = false ∧
           s.CommandExists "systemd-resolve" = false) ∨
          s.ServiceRunning "systemd-resolved" = (false, none))
    (h3 : s.FileExists "/etc/resolv.conf" = true)
    (h4 : s.IsSymlink "/etc/resolv.conf" = (true, none)) :
    DetectWithReason s =
      ("", "resolv.conf is a symlink (managed by a service)",
       some "resolv.conf is managed by a service") ∧
    (Detect s).2 ≠ none ∧
    (Detect s).1 ≠ BackendResolvConf ∧
    (DetectWithReason s).1 = "" ∧
    (DetectWithReason s).2.1 ≠ "" := by
  have hstep3 : detectStep3 s =
      ("", "resolv.conf is a symlink (managed by a service)",
       some "resolv.conf is managed by a service") := by
    simp [detectStep3, h3, h4]
  have hstep2 : detectStep2 s = detectStep3 s := by
    rcases h2 with ⟨a, b⟩ | hr
    · simp [detectStep2, a, b]
    · simp [detectStep2, hr]
  have hmain : DetectWithReason s =
      ("", "resolv.conf is a symlink (managed by a service)",
       some "resolv.conf is managed by a service") := by
    simp [DetectWithReason, h1, hstep2, hstep3]
  refine ⟨hmain, ?_, ?_, ?_, ?_⟩
  · simp [Detect, hmain]
  · simp [Detect, hmain, BackendResolvConf]
  · simp [hmain]
  · simp [hmain]

/-- Probe state for the C4 witness: nothing running, no commands,
resolv.conf present and a symlink. -/
def sysOpsC4 : SystemOps :=
  { CommandExists := fun _ => false,
    ServiceRunning := fun _ => (false, none),
    FileExists := fun _ => true,
    IsRegularFile := fun _ => (false, none),
    IsSymlink := fun _ => (true, none) }

/-- Witness for C4. -/
theorem C4_symlinked_resolv_conf_rejected_witness :
    DetectWithReason sysOpsC4 =
      ("", "resolv.conf is a symlink (managed by a service)",
       some "resolv.conf is managed by a service") ∧
    (Detect sysOpsC4).2 ≠ none ∧
    (Detect sysOpsC4).1 ≠ BackendResolvConf ∧
    (DetectWithReason sysOpsC4).1 = "" ∧
    (DetectWithReason sysOpsC4).2.1 ≠ "" :=
  C4_symlinked_resolv_conf_rejected sysOpsC4 rfl (Or.inl ⟨rfl, rfl⟩) rfl rfl

/-! ## Claims about dispatch and the writer -/

/-- A writer loop over `pre ++ rest` whose body succeeds on every
element of `pre` runs `rest` after issuing all of `pre`'s commands. -/
theorem runAll_ok_append (step : α → Except String Unit × List Cmd)
    (pre rest : List α) (hpre : ∀ x ∈ pre, (step x).1 = .ok ()) :
    runAll step (pre ++ rest) =
      ((runAll step rest).1,
       (pre.map fun x => (step x).2).flatten ++ (runAll step rest).2) := by
  induction pre with
  | nil => simp
  | cons x xs ih =>
    have hx : (step x).1 = .ok () := hpre x (by simp)
    have hxs : ∀ y ∈ xs, (step y).1 = .ok () := fun y hy => hpre y (by simp [hy])
    cases hsx : step x with
    | mk r t =>
      rw [hsx] at hx
      simp only [List.cons_append, runAll, hsx]
      simp only at hx
      rw [hx]
      simp [ih hxs, List.flatten, hsx]

/-- A writer loop whose body fails on the head element stops there:
the first error is returned and only the head's commands were issued. -/
theorem runAll_cons_error (step : α → Except String Unit × List Cmd)
    (c : α) (post : List α) (e : String) (hc : (step c).1 = .error e) :
    runAll step (c :: post) = (.error e, (step c).2) := by
  cases hsx : step c with
  | mk r t =>
    rw [hsx] at hc
    simp only at hc
    simp [runAll, hsx, hc]

/-- C8: every backend value outside the supported set is a hard error —
`ReadDNSConfig` errors on anything but NetworkManager, systemd-resolved
and resolv.conf; `Apply` and `ResetToAutomatic` error (doing no work:
the command trace is empty) on anything but NetworkManager and
systemd-resolved. -/
theorem C8_unsupported_backend_hard_error (w : World) (ex : Exec)
    (configs : List DNSConfig) (interfaces : List String) (b : String)
    (hnm : b ≠ BackendNetworkManager) (hsd : b ≠ BackendSystemdResolved) :
    (b ≠ BackendResolvConf →
      ReadDNSConfig w b = .error ("unsupported backend: " ++ b)) ∧
    Apply ex b configs =
      (.error ("unsupported backend for writing: " ++ b), []) ∧
    ResetToAutomatic ex b interfaces =
      (.error ("unsupported backend for reset: " ++ b), []) := by
  refine ⟨fun hrc => ?_, ?_, ?_⟩
  · simp [ReadDNSConfig, hnm, hsd, hrc]
  · simp [Apply, hnm, hsd]
  · simp [ResetToAutomatic, hnm, hsd]

/-- Inert world for the C8 witness. -/
def worldC8 : World :=
  { CommandExists := fun _ => false,
    nmActiveConnections := .error "not run",
    nmConnectionShow := fun _ => .error "not run",
    resolvectlStatus := .error "not run",
    systemdResolveStatus := .error "not run",
    resolvConfContent := .error "not run" }

/-- Inert executor for the C8 witness. -/
def execC8 : Exec := { run := fun _ => ("", none) }

/-- Witness for C8 at the netplan and resolv.conf backend values. -/
theorem C8_unsupported_backend_hard_error_witness :
    ReadDNSConfig worldC8 BackendNetplan =
      .error ("unsupported backend: " ++ BackendNetplan) ∧
    Apply execC8 BackendNetplan [] =
      (.error ("unsupported backend for writing: " ++ BackendNetplan), []) ∧
    ResetToAutomatic execC8 BackendNetplan [] =
      (.error ("unsupported backend for reset: " ++ BackendNetplan), []) ∧
    Apply execC8 BackendResolvConf [] =
      (.error ("unsupported backend for writing: " ++ BackendResolvConf), []) ∧
    ResetToAutomatic execC8 BackendResolvConf [] =
      (.error ("unsupported backend for reset: " ++ BackendResolvConf), []) := by
  have h1 := C8_unsupported_backend_hard_error worldC8 execC8 [] [] BackendNetplan
    (by decide) (by decide)
  have h2 := C8_unsupported_backend_hard_error worldC8 execC8 [] [] BackendResolvConf
    (by decide) (by decide)
  exact ⟨h1.1 (by decide), h1.2.1, h1.2.2, h2.2.1, h2.2.2⟩

/-- C9: applying a config whose IPv4 and IPv6 lists are both empty to a
non-empty interface is not a no-op on NetworkManager: the active
connection is still resolved (an error there aborts), no
connection-modify command is issued, and a device reapply is still
issued; on systemd-resolved the config is skipped entirely and no
command is issued. -/
theorem C9_empty_dns_config_behavior (ex : Exec) (name b desc : String)
    (h : name ≠ "") :
    (∀ e : String, (getNMConnection ex name).1 = .error e →
      Apply ex BackendNetworkManager
        [{ Interface := { Name := name, Backend := b },
           DNS := { IPv4 := [], IPv6 := [], Description := desc } }] =
        (.error ("failed to get active connection for " ++ name ++ ": " ++ e),
         [nmDeviceShowCmd name])) ∧
    (∀ conn : String, (getNMConnection ex name).1 = .ok conn →
      (Apply ex BackendNetworkManager
        [{ Interface := { Name := name, Backend := b },
           DNS := { IPv4 := [], IPv6 := [], Description := desc } }]).2 =
        [nmDeviceShowCmd name, nmReapplyCmd name]) ∧
    Apply ex BackendSystemdResolved
      [{ Interface := { Name := name, Backend := b },
         DNS := { IPv4 := [], IPv6 := [], Description := desc } }] =
      (.ok (), []) := by
  have htrace : (getNMConnection ex name).2 = [nmDeviceShowCmd name] := rfl
  refine ⟨?_, ?_, ?_⟩
  · intro e he
    simp [Apply, applyNetworkManager, runAll, applyNMStep, h, he, htrace]
  · intro conn hconn
    cases hrun : (ex.run (nmReapplyCmd name)).2 with
    | none =>
      simp [Apply, applyNetworkManager, runAll, applyNMStep, h, hconn, htrace, hrun]
    | some e =>
      simp [Apply, applyNetworkManager, runAll, applyNMStep, h, hconn, htrace, hrun]
  · simp [Apply, applySystemdResolved, runAll, applySDStep, h,
      BackendSystemdResolved, BackendNetworkManager]

/-- Executor for the C9 witness whose device-show command fails. -/
def execC9fail : Exec := { run := fun _ => ("", some "exit status 4") }

/-- Executor for the C9 witness whose commands all succeed; device-show
prints the connection name with a trailing newline. -/
def execC9ok : Exec := { run := fun _ => ("FooConn\n", none) }

/-- Witness for C9 on both the failing-lookup and successful-lookup
executors. -/
theorem C9_empty_dns_config_behavior_witness :
    Apply execC9fail BackendNetworkManager
      [{ Interface := { Name := "eth0", Backend := "NetworkManager" },
         DNS := { IPv4 := [], IPv6 := [], Description := "" } }] =
      (.error ("failed to get active connection for " ++ "eth0" ++ ": " ++
        "nmcli error: : exit status 4"), [nmDeviceShowCmd "eth0"]) ∧
    (Apply execC9ok BackendNetworkManager
      [{ Interface := { Name := "eth0", Backend := "NetworkManager" },
         DNS := { IPv4 := [], IPv6 := [], Description := "" } }]).2 =
      [nmDeviceShowCmd "eth0", nmReapplyCmd "eth0"] ∧
    Apply execC9ok BackendSystemdResolved
      [{ Interface := { Name := "eth0", Backend := "NetworkManager" },
         DNS := { IPv4 := [], IPv6 := [], Description := "" } }] =
      (.ok (), []) :=
  ⟨(C9_empty_dns_config_behavior execC9fail "eth0" "NetworkManager" ""
      (by decide)).1 "nmcli error: : exit status 4" rfl,
   (C9_empty_dns_config_behavior execC9ok "eth0" "NetworkManager" ""
      (by decide)).2.1 "FooConn" rfl,
   (C9_empty_dns_config_behavior execC9ok "eth0" "NetworkManager" ""
      (by decide)).2.2⟩

/-- C7: both write operations are fail-fast and non-transactional: with
configs `pre ++ c :: post` where every element of `pre` succeeds and
`c` fails, the call returns the first error, the commands for `pre`
have been issued (and nothing undoes them), and nothing of `post` is
ever attempted — for Apply and ResetToAutomatic on both writable
backends. -/
theorem C7_fail_fast_not_transactional (ex : Exec)
    (pre post : List DNSConfig) (c : DNSConfig)
    (ipre ipost : List String) (ic : String) (e1 e2 e3 e4 : String) :
    ((∀ x ∈ pre, (applyNMStep ex x).1 = .ok ()) →
     (applyNMStep ex c).1 = .error e1 →
      Apply ex BackendNetworkManager (pre ++ c :: post) =
        (.error e1,
         (pre.map fun x => (applyNMStep ex x).2).flatten ++ (applyNMStep ex c).2)) ∧
    ((∀ x ∈ pre, (applySDStep ex x).1 = .ok ()) →
     (applySDStep ex c).1 = .error e2 →
      Apply ex BackendSystemdResolved (pre ++ c :: post) =
        (.error e2,
         (pre.map fun x => (applySDStep ex x).2).flatten ++ (applySDStep ex c).2)) ∧
    ((∀ x ∈ ipre, (resetNMStep ex x).1 = .ok ()) →
     (resetNMStep ex ic).1 = .error e3 →
      ResetToAutomatic ex BackendNetworkManager (ipre ++ ic :: ipost) =
        (.error e3,
         (ipre.map fun x => (resetNMStep ex x).2).flatten ++ (resetNMStep ex ic).2)) ∧
    ((∀ x ∈ ipre, (resetSDStep ex x).1 = .ok ()) →
     (resetSDStep ex ic).1 = .error e4 →
      ResetToAutomatic ex BackendSystemdResolved (ipre ++ ic :: ipost) =
        (.error e4,
         (ipre.map fun x => (resetSDStep ex x).2).flatten ++ (resetSDStep ex ic).2)) := by
  refine ⟨fun hpre hc => ?_, fun hpre hc => ?_, fun hpre hc => ?_, fun hpre hc => ?_⟩
  · rw [show Apply ex BackendNetworkManager (pre ++ c :: post) =
        runAll (applyNMStep ex) (pre ++ c :: post) from rfl,
      runAll_ok_append _ pre (c :: post) hpre, runAll_cons_error _ c post e1 hc]
  · rw [show Apply ex BackendSystemdResolved (pre ++ c :: post) =
        runAll (applySDStep ex) (pre ++ c :: post) from rfl,
      runAll_ok_append _ pre (c :: post) hpre, runAll_cons_error _ c post e2 hc]
  · rw [show ResetToAutomatic ex BackendNetworkManager (ipre ++ ic :: ipost) =
        runAll (resetNMStep ex) (ipre ++ ic :: ipost) from rfl,
      runAll_ok_append _ ipre (ic :: ipost) hpre, runAll_cons_error _ ic ipost e3 hc]
  · rw [show ResetToAutomatic ex BackendSystemdResolved (ipre ++ ic :: ipost) =
        runAll (resetSDStep ex) (ipre ++ ic :: ipost) from rfl,
      runAll_ok_append _ ipre (ic :: ipost) hpre, runAll_cons_error _ ic ipost e4 hc]

/-- Executor for the C7 witness: every command that mentions the
interface bad0 fails, every other command prints "Conn". -/
def execC7 : Exec :=
  { run := fun cmd =>
      if cmd.contains "bad0" then ("boom", some "exit status 1")
      else ("Conn", none) }

/-- C7 witness config for the working interface. -/
def cfgC7eth : DNSConfig :=
  { Interface := { Name := "eth0", Backend := "NetworkManager" },
    DNS := { IPv4 := ["1.1.1.1"], IPv6 := [], Description := "" } }

/-- C7 witness config for the failing interface. -/
def cfgC7bad : DNSConfig :=
  { Interface := { Name := "bad0", Backend := "NetworkManager" },
    DNS := { IPv4 := ["1.1.1.1"], IPv6 := [], Description := "" } }

/-- C7 witness config for the never-attempted interface. -/
def cfgC7post : DNSConfig :=
  { Interface := { Name := "wlan0", Backend := "NetworkManager" },
    DNS := { IPv4 := ["1.1.1.1"], IPv6 := [], Description := "" } }

/-- Witness for C7: interface 2 of 3 fails; the first error is
returned, interface 1's commands stand un-reverted and interface 3
never appears in the trace — on all four writer loops. -/
theorem C7_fail_fast_not_transactional_witness :
    Apply execC7 BackendNetworkManager [cfgC7eth, cfgC7bad, cfgC7post] =
      (.error "failed to get active connection for bad0: nmcli error: boom: exit status 1",
       [nmDeviceShowCmd "eth0", nmModifyV4Cmd "Conn" "1.1.1.1",
        nmReapplyCmd "eth0", nmDeviceShowCmd "bad0"]) ∧
    Apply execC7 BackendSystemdResolved [cfgC7eth, cfgC7bad, cfgC7post] =
      (.error "failed to set DNS for bad0 via resolvectl: boom: exit status 1",
       [["resolvectl", "dns", "eth0", "1.1.1.1"],
        ["resolvectl", "dns", "bad0", "1.1.1.1"]]) ∧
    ResetToAutomatic execC7 BackendNetworkManager ["eth0", "bad0", "wlan0"] =
      (.error "failed to get connection for bad0: nmcli error: boom: exit status 1",
       [nmDeviceShowCmd "eth0", nmModifyV4ResetCmd "Conn",
        nmModifyV6ResetCmd "Conn", nmReapplyCmd "eth0", nmDeviceShowCmd "bad0"]) ∧
    ResetToAutomatic execC7 BackendSystemdResolved ["eth0", "bad0", "wlan0"] =
      (.error "failed to revert DNS for bad0: boom: exit status 1",
       [["resolvectl", "revert", "eth0"], ["resolvectl", "revert", "bad0"]]) := by
  have h := C7_fail_fast_not_transactional execC7 [cfgC7eth] [cfgC7post] cfgC7bad
    ["eth0"] ["wlan0"] "bad0"
    "failed to get active connection for bad0: nmcli error: boom: exit status 1"
    "failed to set DNS for bad0 via resolvectl: boom: exit status 1"
    "failed to get connection for bad0: nmcli error: boom: exit status 1"
    "failed to revert DNS for bad0: boom: exit status 1"
  have hpre1 : ∀ x ∈ [cfgC7eth], (applyNMStep execC7 x).1 = .ok () := by
    intro x hx; rw [List.mem_singleton] at hx; subst hx; rfl
  have hpre2 : ∀ x ∈ [cfgC7eth], (applySDStep execC7 x).1 = .ok () := by
    intro x hx; rw [List.mem_singleton] at hx; subst hx; rfl
  have hpre3 : ∀ x ∈ ["eth0"], (resetNMStep execC7 x).1 = .ok () := by
    intro x hx; rw [List.mem_singleton] at hx; subst hx; rfl
  have hpre4 : ∀ x ∈ ["eth0"], (resetSDStep execC7 x).1 = .ok () := by
    intro x hx; rw [List.mem_singleton] at hx; subst hx; rfl
  exact ⟨h.1 hpre1 rfl, h.2.1 hpre2 rfl, h.2.2.1 hpre3 rfl, h.2.2.2 hpre4 rfl⟩

/-! ## Claims about the reader -/

/-- C5: reading NetworkManager with two active connections, one of
whose per-connection DNS queries fails while the other succeeds,
returns a non-error `StatusInfo` carrying the successful interface and
exactly one warning that names the failed connection's device; a
successful interface whose two DNS lists are both empty is omitted
entirely (the `if` in the conclusion) rather than reported with empty
lists.  Both failure orders are covered. -/
theorem C5_per_connection_failure_is_warning (w : World)
    (out l1 l2 n1 d1 n2 d2 e : String) (v4 v6 : List String)
    (hout : w.nmActiveConnections = .ok out)
    (hlines : goLines out = [l1, l2])
    (hl1 : goSplitColon l1 = [n1, d1])
    (hl2 : goSplitColon l2 = [n2, d2])
    (hd1 : d1 ≠ "") (hd2 : d2 ≠ "") :
    (getDNSForConnection w n1 = .error e →
     getDNSForConnection w n2 = .ok (v4, v6) →
      readNetworkManager w = .ok
        { Backend := BackendNetworkManager,
          Interfaces :=
            if v4.length > 0 || v6.length > 0 then
              [{ Name := d2, IPv4 := v4, IPv6 := v6 }]
            else [],
          Managed := true,
          Warnings := ["failed to get DNS for " ++ d1 ++ ": " ++ e] }) ∧
    (getDNSForConnection w n1 = .ok (v4, v6) →
     getDNSForConnection w n2 = .error e →
      readNetworkManager w = .ok
        { Backend := BackendNetworkManager,
          Interfaces :=
            if v4.length > 0 || v6.length > 0 then
              [{ Name := d1, IPv4 := v4, IPv6 := v6 }]
            else [],
          Managed := true,
          Warnings := ["failed to get DNS for " ++ d2 ++ ": " ++ e] }) := by
  constructor
  · intro hq1 hq2
    cases hv : (v4.length > 0 || v6.length > 0) <;>
      simp [readNetworkManager, hout, hlines, nmReadStep, hl1, hl2, hd1, hd2,
        hq1, hq2, hv]
  · intro hq1 hq2
    cases hv : (v4.length > 0 || v6.length > 0) <;>
      simp [readNetworkManager, hout, hlines, nmReadStep, hl1, hl2, hd1, hd2,
        hq1, hq2, hv]

/-- World for the C5 witness: two active connections; the DNS query
for connection Wired (device eth0) fails, the one for Wifi (device
wlan0) succeeds with one IPv4 server. -/
def worldC5 : World :=
  { CommandExists := fun _ => false,
    nmActiveConnections := .ok "Wired:eth0\nWifi:wlan0\n",
    nmConnectionShow := fun c =>
      if c == "Wired" then .error "exit status 10"
      else .ok "IP4.DNS[1]:8.8.8.8",
    resolvectlStatus := .error "not run",
    systemdResolveStatus := .error "not run",
    resolvConfContent := .error "not run" }

/-- World for the C5 witness with the failure order swapped: Wired
succeeds, Wifi fails. -/
def worldC5b : World :=
  { worldC5 with nmConnectionShow := (fun c =>
      if c == "Wifi" then .error "exit status 10"
      else .ok "IP4.DNS[1]:8.8.8.8") }

/-- Witness for C5, both orders. -/
theorem C5_per_connection_failure_is_warning_witness :
    readNetworkManager worldC5 = .ok
      { Backend := BackendNetworkManager,
        Interfaces := [{ Name := "wlan0", IPv4 := ["8.8.8.8"], IPv6 := [] }],
        Managed := true,
        Warnings := ["failed to get DNS for eth0: exit status 10"] } ∧
    readNetworkManager worldC5b = .ok
      { Backend := BackendNetworkManager,
        Interfaces := [{ Name := "eth0", IPv4 := ["8.8.8.8"], IPv6 := [] }],
        Managed := true,
        Warnings := ["failed to get DNS for wlan0: exit status 10"] } :=
  ⟨(C5_per_connection_failure_is_warning worldC5
      "Wired:eth0\nWifi:wlan0\n" "Wired:eth0" "Wifi:wlan0"
      "Wired" "eth0" "Wifi" "wlan0" "exit status 10" ["8.8.8.8"] []
      rfl rfl rfl rfl (by decide) (by decide)).1 rfl rfl,
   (C5_per_connection_failure_is_warning worldC5b
      "Wired:eth0\nWifi:wlan0\n" "Wired:eth0" "Wifi:wlan0"
      "Wired" "eth0" "Wifi" "wlan0" "exit status 10" ["8.8.8.8"] []
      rfl rfl rfl rfl (by decide) (by decide)).2 rfl rfl⟩

/-- The tokens the C6 claim describes, following its wording: the
address token of each `nameserver` DIRECTIVE of the file, in file
order — a directive being a non-blank non-comment line whose first
whitespace-separated field is exactly the keyword "nameserver" (as in
resolv.conf syntax, `nameserver <addr>`). -/
def nameserverDirectiveTokens (content : String) : List String :=
  (goLines content).filterMap (fun rawLine =>
    let line := goTrim rawLine
    if goStartsWith line "#" || line == "" then none
    else
      match goFields line with
      | kw :: addr :: _ => if kw = "nameserver" then some addr else none
      | _ => none)

/-- The token one line of `readResolvConf` actually extracts: the
second whitespace field of a non-blank non-comment line whose trimmed
form merely BEGINS with the string "nameserver" (it need not be a
well-formed directive). -/
def resolvExtractOne (rawLine : String) : Option String :=
  let line := goTrim rawLine
  if goStartsWith line "#" || line == "" then none
  else if goStartsWith line "nameserver" then
    match goFields line with
    | _ :: addr :: _ => some addr
    | _ => none
  else none

/-- One `readResolvConf` loop step, expressed through the token it
extracts. -/
theorem resolvStep_extract (acc : List String × List String) (l : String) :
    resolvStep acc l =
      match resolvExtractOne l with
      | none => acc
      | some addr =>
        if goContains addr ':' then (acc.1, acc.2 ++ [addr])
        else (acc.1 ++ [addr], acc.2) := by
  unfold resolvStep resolvExtractOne
  by_cases h1 : (goStartsWith (goTrim l) "#" || goTrim l == "") = true
  · simp [h1]
  · rw [Bool.not_eq_true] at h1
    simp only [h1, Bool.false_eq_true, if_false]
    by_cases h2 : goStartsWith (goTrim l) "nameserver" = true
    · simp only [h2, if_true]
      rcases hf : goFields (goTrim l) with _ | ⟨kw, _ | ⟨addr, rest⟩⟩
      · simp
      · simp
      · simp
    · rw [Bool.not_eq_true] at h2
      simp [h2]

/-- The whole `readResolvConf` accumulation: the IPv4 accumulator
collects, in file order, the extracted tokens without a colon; the
IPv6 accumulator those with one. -/
theorem foldl_resolvStep (lines : List String) (acc : List String × List String) :
    lines.foldl resolvStep acc =
      (acc.1 ++ (lines.filterMap resolvExtractOne).filter
         (fun a => !(goContains a ':')),
       acc.2 ++ (lines.filterMap resolvExtractOne).filter
         (fun a => goContains a ':')) := by
  induction lines generalizing acc with
  | nil => simp
  | cons l ls ih =>
    rw [List.foldl_cons, resolvStep_extract, List.filterMap_cons]
    rcases hx : resolvExtractOne l with _ | addr
    · simp [ih]
    · by_cases hc : goContains addr ':' = true
      · simp [hc, ih]
      · rw [Bool.not_eq_true] at hc
        simp [hc, ih]

/-- `readNetworkManager` marks every successful result managed. -/
theorem readNetworkManager_managed (w : World) (info : StatusInfo)
    (h : readNetworkManager w = .ok info) : info.Managed = true := by
  unfold readNetworkManager at h
  cases hw : w.nmActiveConnections with
  | error e => rw [hw] at h; exact absurd h (by simp)
  | ok output =>
    rw [hw] at h
    simp only [Except.ok.injEq] at h
    subst h
    rfl

/-- `readSystemdResolved` marks every successful result managed. -/
theorem readSystemdResolved_managed (w : World) (info : StatusInfo)
    (h : readSystemdResolved w = .ok info) : info.Managed = true := by
  unfold readSystemdResolved at h
  split at h
  · cases hs : w.resolvectlStatus with
    | error e => rw [hs] at h; exact absurd h (by simp)
    | ok output =>
      rw [hs] at h
      simp only [Except.ok.injEq] at h
      subst h
      rfl
  · split at h
    · cases hs : w.systemdResolveStatus with
      | error e => rw [hs] at h; exact absurd h (by simp)
      | ok output =>
        rw [hs] at h
        simp only [Except.ok.injEq] at h
        subst h
        rfl
    · exact absurd h (by simp)

/-- Characterization of `readResolvConf`: on a readable file it always
succeeds, with the extracted tokens partitioned by colon-presence onto
the single "system" interface (omitted when no token was extracted),
Managed false and no warnings. -/
theorem readResolvConf_characterization (w : World) (content : String)
    (h : w.resolvConfContent = .ok content) :
    readResolvConf w = .ok
      { Backend := BackendResolvConf,
        Interfaces :=
          if (((goLines content).filterMap resolvExtractOne).filter
                (fun a => !(goContains a ':'))).length > 0 ||
             (((goLines content).filterMap resolvExtractOne).filter
                (fun a => goContains a ':')).length > 0 then
            [{ Name := "system",
               IPv4 := ((goLines content).filterMap resolvExtractOne).filter
                 (fun a => !(goContains a ':')),
               IPv6 := ((goLines content).filterMap resolvExtractOne).filter
                 (fun a => goContains a ':') }]
          else [],
        Managed := false, Warnings := [] } := by
  unfold readResolvConf
  rw [h]
  simp only [foldl_resolvStep, List.nil_append]

/-- World whose resolv.conf consists of one line that begins with the
string "nameserver" without being a nameserver directive. -/
def worldC6cx : World :=
  { worldC8 with resolvConfContent := .ok "nameserverx 1.2.3.4\n" }

/-- C6 counterexample: the file contains no `nameserver` directive at
all (its only line's first field is "nameserverx"), yet `ReadDNSConfig`
on the resolv.conf backend extracts the token "1.2.3.4" — so the code
does not extract exactly the address tokens of the nameserver
directives. -/
theorem C6_counterexample :
    nameserverDirectiveTokens "nameserverx 1.2.3.4\n" = [] ∧
    ReadDNSConfig worldC6cx BackendResolvConf = .ok
      { Backend := BackendResolvConf,
        Interfaces := [{ Name := "system", IPv4 := ["1.2.3.4"], IPv6 := [] }],
        Managed := false, Warnings := [] } :=
  ⟨rfl, rfl⟩

/-- C6 as amended: for every resolv.conf content, the read succeeds,
skips blank lines and lines whose first non-whitespace character is
'#', extracts in file order the second field of every remaining line
whose trimmed form begins with the string "nameserver" (not only of
well-formed `nameserver` directives), classifies each token as IPv6
exactly when it contains a colon, attributes everything to the single
synthetic interface "system", and reports Managed = false — while the
NetworkManager and systemd-resolved readers always report
Managed = true. -/
theorem C6_amended_resolv_conf_parse (w : World) (content : String)
    (h : w.resolvConfContent = .ok content) :
    ReadDNSConfig w BackendResolvConf = .ok
      { Backend := BackendResolvConf,
        Interfaces :=
          if (((goLines content).filterMap resolvExtractOne).filter
                (fun a => !(goContains a ':'))).length > 0 ||
             (((goLines content).filterMap resolvExtractOne).filter
                (fun a => goContains a ':')).length > 0 then
            [{ Name := "system",
               IPv4 := ((goLines content).filterMap resolvExtractOne).filter
                 (fun a => !(goContains a ':')),
               IPv6 := ((goLines content).filterMap resolvExtractOne).filter
                 (fun a => goContains a ':') }]
          else [],
        Managed := false, Warnings := [] } ∧
    (∀ w2 info, readNetworkManager w2 = .ok info → info.Managed = true) ∧
    (∀ w2 info, readSystemdResolved w2 = .ok info → info.Managed = true) := by
  refine ⟨?_, readNetworkManager_managed, readSystemdResolved_managed⟩
  have hd : ReadDNSConfig w BackendResolvConf = readResolvConf w := rfl
  rw [hd]
  exact readResolvConf_characterization w content h

/-- World for the C6 amended-claim witness: comments, blank lines and
directives of both families interleaved. -/
def worldC6w : World :=
  { worldC8 with resolvConfContent := (.ok
      "# generated\n\nnameserver 8.8.8.8\n  # indented comment\nnameserver 2606:4700::1111\nsearch lan\nnameserver 1.1.1.1\n") }

/-- Witness for the amended C6. -/
theorem C6_amended_resolv_conf_parse_witness :
    ReadDNSConfig worldC6w BackendResolvConf = .ok
      { Backend := BackendResolvConf,
        Interfaces :=
          [{ Name := "system", IPv4 := ["8.8.8.8", "1.1.1.1"],
             IPv6 := ["2606:4700::1111"] }],
        Managed := false, Warnings := [] } :=
  (C6_amended_resolv_conf_parse worldC6w
    "# generated\n\nnameserver 8.8.8.8\n  # indented comment\nnameserver 2606:4700::1111\nsearch lan\nnameserver 1.1.1.1\n"
    rfl).1

/-- World whose resolv.conf has no nameserver directive but one line
that begins with the string "nameserver". -/
def worldC10cx : World :=
  { worldC8 with resolvConfContent := (.ok "nameserverz 5.5.5.5\n") }

/-- C10 counterexample: this file contains no `nameserver` directive
(the only line's first field is "nameserverz"), yet the read does not
return an empty Interfaces list — it reports the synthetic "system"
interface with the extracted address. -/
theorem C10_counterexample :
    nameserverDirectiveTokens "nameserverz 5.5.5.5\n" = [] ∧
    ReadDNSConfig worldC10cx BackendResolvConf = .ok
      { Backend := BackendResolvConf,
        Interfaces := [{ Name := "system", IPv4 := ["5.5.5.5"], IPv6 := [] }],
        Managed := false, Warnings := [] } :=
  ⟨rfl, rfl⟩

/-- C10 as amended: for every resolv.conf content from which the
parser extracts no address token — i.e. with no non-comment line whose
trimmed form begins with "nameserver" and has a second field — the
read on the resolv.conf backend succeeds with no error and an empty
Interfaces list: the synthetic "system" interface is omitted entirely
rather than reported with empty address lists. -/
theorem C10_amended_no_nameserver_empty_interfaces (w : World) (content : String)
    (h : w.resolvConfContent = .ok content)
    (hnone : (goLines content).filterMap resolvExtractOne = []) :
    ReadDNSConfig w BackendResolvConf = .ok
      { Backend := BackendResolvConf, Interfaces := [],
        Managed := false, Warnings := [] } := by
  have hc := readResolvConf_characterization w content h
  rw [hnone] at hc
  have hd : ReadDNSConfig w BackendResolvConf = readResolvConf w := rfl
  rw [hd]
  simpa using hc

/-- World for the C10 witness: only comments and blank lines. -/
def worldC10w : World :=
  { worldC8 with resolvConfContent := (.ok "# nothing here\n\n  # indented\noptions edns0\n") }

/-- Witness for the amended C10. -/
theorem C10_amended_no_nameserver_empty_interfaces_witness :
    ReadDNSConfig worldC10w BackendResolvConf = .ok
      { Backend := BackendResolvConf, Interfaces := [],
        Managed := false, Warnings := [] } :=
  C10_amended_no_nameserver_empty_interfaces worldC10w
    "# nothing here\n\n  # indented\noptions edns0\n" rfl rfl

end CDNS
